import Mathlib

/-!
Shallow embedding of the Display Topology and Refresh-Rate Controller
(src/src/lib.rs) together with proofs about its operations.

The platform boundary (the display-configuration enumerator, the
device-class enumerator, the mode-change primitive) is modelled by
explicit environments: a record of the responses the platform gives to
each call the program makes.  Machine words (WCHAR, DWORD) are modelled
as Nat; the program performs no wrapping arithmetic on them.  Logged
diagnostics and the invocation of the mutating change primitive are made
observable in the functions' results.
-/

namespace RefreshRateCtl

/-! ## Wide-string codec (to_wide_string, lines 23-25, and the
String::from_utf16_lossy / trim_end_matches decoding used throughout) -/

/-- UTF-16 code units of one character, as Rust's encode_utf16 emits them:
one unit below 0x10000, otherwise a surrogate pair. -/
def encodeUtf16Char (c : Char) : List Nat :=
  let v := c.toNat
  if v < 0x10000 then [v]
  else
    let w := v - 0x10000
    [0xD800 + w / 0x400, 0xDC00 + w % 0x400]

/-- Model of to_wide_string (lib.rs lines 23-25): the UTF-16 units of the
text followed by a terminating zero unit. -/
def to_wide_string (s : String) : List Nat :=
  (s.data.map encodeUtf16Char).flatten ++ [0]

/-- Model of String::from_utf16_lossy on a buffer of 16-bit units: a valid
unit decodes to itself, a high surrogate followed by a low surrogate
decodes to the combined scalar, and any unpaired surrogate unit decodes
to the replacement character U+FFFD. -/
def utf16_lossy : List Nat → List Char
  | [] => []
  | [u] =>
    if u < 0xD800 || 0xE000 ≤ u then [Char.ofNat u] else [Char.ofNat 0xFFFD]
  | u :: v :: rest =>
    if u < 0xD800 || 0xE000 ≤ u then
      Char.ofNat u :: utf16_lossy (v :: rest)
    else if u < 0xDC00 && (0xDC00 ≤ v && v < 0xE000) then
      Char.ofNat (0x10000 + (u - 0xD800) * 0x400 + (v - 0xDC00)) :: utf16_lossy rest
    else
      Char.ofNat 0xFFFD :: utf16_lossy (v :: rest)

/-- Model of trim_end_matches applied with the null character: drop every
trailing null. -/
def trimEndNulls (cs : List Char) : List Char :=
  (cs.reverse.dropWhile (· == Char.ofNat 0)).reverse

/-- String::from_utf16_lossy(buffer).trim_end_matches char 0, the decoding
the program applies to every raw wide-character buffer it reads. -/
def decode_trim (ws : List Nat) : String :=
  String.mk (trimEndNulls (utf16_lossy ws))

/-! ## Mode Enumerator (get_available_refresh_rates, lib.rs lines 27-50)

The loop calls EnumDisplaySettingsW with mode index 0, 1, 2, ... until the
call fails; each successful call fills dev_mode, of which only
dmDisplayFrequency is read.  The platform's responses are therefore
modelled as the finite list of reported frequencies, in enumeration
order.  The HashSet accumulator is modelled as a Finset and the final
sort_unstable as Finset.sort. -/

/-- Model of get_available_refresh_rates (lib.rs lines 27-50): insert every
reported frequency strictly greater than 1 into a deduplicating set,
then list the set's members in ascending order. -/
def get_available_refresh_rates (modes : List Nat) : List Nat :=
  let refresh_rates : Finset Nat :=
    modes.foldl (fun s f => if 1 < f then insert f s else s) ∅
  refresh_rates.sort (· ≤ ·)

theorem mem_collectRates (modes : List Nat) (s : Finset Nat) (x : Nat) :
    x ∈ modes.foldl (fun s f => if 1 < f then insert f s else s) s ↔
      x ∈ s ∨ (x ∈ modes ∧ 1 < x) := by
  induction modes generalizing s with
  | nil => simp
  | cons f t ih =>
    simp only [List.foldl_cons, ih, List.mem_cons]
    by_cases hf : 1 < f
    · simp only [if_pos hf, Finset.mem_insert]
      constructor
      · rintro (⟨rfl | hx⟩ | ⟨ht, hx1⟩)
        · exact Or.inr ⟨Or.inl rfl, hf⟩
        · exact Or.inl hx
        · exact Or.inr ⟨Or.inr ht, hx1⟩
      · rintro (hx | ⟨rfl | ht, hx1⟩)
        · exact Or.inl (Or.inr hx)
        · exact Or.inl (Or.inl rfl)
        · exact Or.inr ⟨ht, hx1⟩
    · simp only [if_neg hf]
      constructor
      · rintro (hx | ⟨ht, hx1⟩)
        · exact Or.inl hx
        · exact Or.inr ⟨Or.inr ht, hx1⟩
      · rintro (hx | ⟨rfl | ht, hx1⟩)
        · exact Or.inl hx
        · exact absurd hx1 hf
        · exact Or.inr ⟨ht, hx1⟩

theorem mem_get_available_refresh_rates (modes : List Nat) (x : Nat) :
    x ∈ get_available_refresh_rates modes ↔ x ∈ modes ∧ 1 < x := by
  unfold get_available_refresh_rates
  rw [Finset.mem_sort, mem_collectRates]
  simp

/-- Claim C1: for every sequence of raw mode records, the sequence returned
by get_available_refresh_rates is strictly ascending, contains no
duplicates, and excludes every value at most 1; and if every enumerated
mode reports frequency 0 or 1, the result is empty. -/
theorem C1_refresh_rates_sorted_nodup_positive (modes : List Nat) :
    List.Sorted (· < ·) (get_available_refresh_rates modes) ∧
    (get_available_refresh_rates modes).Nodup ∧
    (∀ x ∈ get_available_refresh_rates modes, ¬ x ≤ 1) ∧
    ((∀ f ∈ modes, f = 0 ∨ f = 1) → get_available_refresh_rates modes = []) := by
  refine ⟨Finset.sort_sorted_lt _, Finset.sort_nodup _ _, ?_, ?_⟩
  · intro x hx
    have := (mem_get_available_refresh_rates modes x).1 hx
    omega
  · intro hall
    have : ∀ x, x ∉ get_available_refresh_rates modes := by
      intro x hx
      have hm := (mem_get_available_refresh_rates modes x).1 hx
      rcases hall x hm.1 with rfl | rfl <;> omega
    exact List.eq_nil_iff_forall_not_mem.mpr this

/-! ## Refresh-Rate Setter (set_display_refresh_rate, lib.rs lines 236-308)

The function reads the device's current settings with
EnumDisplaySettingsW(name, ENUM_CURRENT_SETTINGS), short-circuits when the
current frequency already equals the requested rate, and otherwise submits
the modified settings to ChangeDisplaySettingsExW and pattern-matches the
returned code.  Of DEVMODEW only the two fields the program reads or
writes are modelled.  The result triple makes the observables explicit:
the returned boolean, whether the mutating change primitive was invoked,
and the logged error diagnostics. -/

/-- The two DEVMODEW fields the program touches: the refresh frequency and
the field-present bitmask. -/
structure DEVMODE where
  dmDisplayFrequency : Nat
  dmFields : Nat
deriving DecidableEq, Repr, Inhabited

/-- Constant DM_DISPLAYFREQUENCY from wingdi. -/
def DM_DISPLAYFREQUENCY : Nat := 0x400000

/-- Constant DISP_CHANGE_SUCCESSFUL from winuser (a LONG). -/
def DISP_CHANGE_SUCCESSFUL : Int := 0

/-- Constant DISP_CHANGE_RESTART from winuser (a LONG). -/
def DISP_CHANGE_RESTART : Int := 1

/-- Platform responses consumed by set_display_refresh_rate: the result of
the current-settings query keyed by the null-terminated wide device name
(none models a zero return from EnumDisplaySettingsW), the value
GetLastError would report, and the code ChangeDisplaySettingsExW returns
for a submitted settings record. -/
structure SetterPlatform where
  enumCurrent : List Nat → Option DEVMODE
  lastError : Nat
  changeResult : List Nat → DEVMODE → Int

/-- An error diagnostic set_display_refresh_rate writes to the error
stream: the failed current-settings read with the last platform error, or
a failed change with the returned code and the last platform error. -/
inductive SetterLog
  | enumSettingsFailed (lastError : Nat)
  | changeFailed (code : Int) (lastError : Nat)
deriving DecidableEq, Repr

/-- Model of set_display_refresh_rate (lib.rs lines 236-308).  The triple
is (returned boolean, whether ChangeDisplaySettingsExW was invoked,
logged error diagnostics). -/
def set_display_refresh_rate (env : SetterPlatform) (device_name : String)
    (refresh_rate : Nat) : Bool × Bool × List SetterLog :=
  let device_name_wide := to_wide_string device_name
  match env.enumCurrent device_name_wide with
  | none => (false, false, [SetterLog.enumSettingsFailed env.lastError])
  | some dev_mode =>
    if dev_mode.dmDisplayFrequency = refresh_rate then
      (true, false, [])
    else
      let submitted : DEVMODE :=
        { dmDisplayFrequency := refresh_rate,
          dmFields := dev_mode.dmFields ||| DM_DISPLAYFREQUENCY }
      let change_result := env.changeResult device_name_wide submitted
      if change_result = DISP_CHANGE_SUCCESSFUL then (true, true, [])
      else if change_result = DISP_CHANGE_RESTART then (true, true, [])
      else (false, true, [SetterLog.changeFailed change_result env.lastError])

/-- Claim C2 counterexample: with the current rate 60 and requested rate
120, a platform whose change primitive returns DISP_CHANGE_RESTART
produces the very same observable outcome as one whose change primitive
returns DISP_CHANGE_SUCCESSFUL — the restart-required code is not mapped
to an outcome distinct from plain success (both are the boolean true). -/
theorem C2_counterexample_restart_equals_success :
    set_display_refresh_rate ⟨fun _ => some ⟨60, 0⟩, 0, fun _ _ => DISP_CHANGE_RESTART⟩ "d" 120 =
      set_display_refresh_rate ⟨fun _ => some ⟨60, 0⟩, 0, fun _ _ => DISP_CHANGE_SUCCESSFUL⟩ "d" 120 ∧
    (set_display_refresh_rate ⟨fun _ => some ⟨60, 0⟩, 0, fun _ _ => DISP_CHANGE_RESTART⟩ "d" 120).1 = true := by
  exact ⟨rfl, rfl⟩

/-- Claim C2 (amended): set_display_refresh_rate classifies the change
primitive's code into a boolean: the successful code and the
restart-required code both map to true (restart-required is distinguished
from plain success only by a logged message, not by the returned value),
and any other code maps to false with that code and the last platform
error carried in the logged diagnostics. -/
theorem C2_change_result_classification (env : SetterPlatform) (d : String)
    (r : Nat) (dm : DEVMODE)
    (hread : env.enumCurrent (to_wide_string d) = some dm)
    (hne : dm.dmDisplayFrequency ≠ r) :
    (env.changeResult (to_wide_string d) ⟨r, dm.dmFields ||| DM_DISPLAYFREQUENCY⟩ =
        DISP_CHANGE_SUCCESSFUL →
      set_display_refresh_rate env d r = (true, true, [])) ∧
    (env.changeResult (to_wide_string d) ⟨r, dm.dmFields ||| DM_DISPLAYFREQUENCY⟩ =
        DISP_CHANGE_RESTART →
      set_display_refresh_rate env d r = (true, true, [])) ∧
    (env.changeResult (to_wide_string d) ⟨r, dm.dmFields ||| DM_DISPLAYFREQUENCY⟩ ≠
        DISP_CHANGE_SUCCESSFUL →
     env.changeResult (to_wide_string d) ⟨r, dm.dmFields ||| DM_DISPLAYFREQUENCY⟩ ≠
        DISP_CHANGE_RESTART →
      set_display_refresh_rate env d r =
        (false, true,
          [SetterLog.changeFailed
            (env.changeResult (to_wide_string d) ⟨r, dm.dmFields ||| DM_DISPLAYFREQUENCY⟩)
            env.lastError])) := by
  simp only [set_display_refresh_rate, hread, if_neg hne]
  refine ⟨?_, ?_, ?_⟩
  · intro hc; rw [hc]; simp
  · intro hc; rw [hc]; simp [DISP_CHANGE_RESTART, DISP_CHANGE_SUCCESSFUL]
  · intro h1 h2; rw [if_neg h1, if_neg h2]

/-- Claim C2 amended, at a concrete input: current rate 60, requested 120,
change primitive returning the successful code. -/
theorem C2_change_result_classification_witness :
    ((⟨fun _ => some ⟨60, 0⟩, 9, fun _ _ => DISP_CHANGE_SUCCESSFUL⟩ :
        SetterPlatform).changeResult (to_wide_string "d")
          ⟨120, (0 : Nat) ||| DM_DISPLAYFREQUENCY⟩ = DISP_CHANGE_SUCCESSFUL →
      set_display_refresh_rate
        ⟨fun _ => some ⟨60, 0⟩, 9, fun _ _ => DISP_CHANGE_SUCCESSFUL⟩ "d" 120 =
        (true, true, [])) ∧
    ((⟨fun _ => some ⟨60, 0⟩, 9, fun _ _ => DISP_CHANGE_SUCCESSFUL⟩ :
        SetterPlatform).changeResult (to_wide_string "d")
          ⟨120, (0 : Nat) ||| DM_DISPLAYFREQUENCY⟩ = DISP_CHANGE_RESTART →
      set_display_refresh_rate
        ⟨fun _ => some ⟨60, 0⟩, 9, fun _ _ => DISP_CHANGE_SUCCESSFUL⟩ "d" 120 =
        (true, true, [])) ∧
    ((⟨fun _ => some ⟨60, 0⟩, 9, fun _ _ => DISP_CHANGE_SUCCESSFUL⟩ :
        SetterPlatform).changeResult (to_wide_string "d")
          ⟨120, (0 : Nat) ||| DM_DISPLAYFREQUENCY⟩ ≠ DISP_CHANGE_SUCCESSFUL →
     (⟨fun _ => some ⟨60, 0⟩, 9, fun _ _ => DISP_CHANGE_SUCCESSFUL⟩ :
        SetterPlatform).changeResult (to_wide_string "d")
          ⟨120, (0 : Nat) ||| DM_DISPLAYFREQUENCY⟩ ≠ DISP_CHANGE_RESTART →
      set_display_refresh_rate
        ⟨fun _ => some ⟨60, 0⟩, 9, fun _ _ => DISP_CHANGE_SUCCESSFUL⟩ "d" 120 =
        (false, true,
          [SetterLog.changeFailed
            ((⟨fun _ => some ⟨60, 0⟩, 9, fun _ _ => DISP_CHANGE_SUCCESSFUL⟩ :
                SetterPlatform).changeResult (to_wide_string "d")
              ⟨120, (0 : Nat) ||| DM_DISPLAYFREQUENCY⟩) 9])) :=
  C2_change_result_classification
    ⟨fun _ => some ⟨60, 0⟩, 9, fun _ _ => DISP_CHANGE_SUCCESSFUL⟩ "d" 120 ⟨60, 0⟩
    rfl (by decide)

/-- Claim C3: whenever the current-settings read succeeds and the current
frequency already equals the requested rate, set_display_refresh_rate
returns success without invoking the change primitive; hence if both the
first and the second call observe the requested rate as current (no
intervening topology change), both calls return success and the second
call invokes no change primitive. -/
theorem C3_idempotent_short_circuit (env env2 : SetterPlatform) (d : String)
    (r : Nat) (dm dm2 : DEVMODE)
    (hread : env.enumCurrent (to_wide_string d) = some dm)
    (heq : dm.dmDisplayFrequency = r)
    (hread2 : env2.enumCurrent (to_wide_string d) = some dm2)
    (heq2 : dm2.dmDisplayFrequency = r) :
    set_display_refresh_rate env d r = (true, false, []) ∧
    set_display_refresh_rate env2 d r = (true, false, []) := by
  constructor
  · simp [set_display_refresh_rate, hread, heq]
  · simp [set_display_refresh_rate, hread2, heq2]

/-- Claim C3 at a concrete input: current rate 60 and requested rate 60 on
both calls. -/
theorem C3_idempotent_short_circuit_witness :
    set_display_refresh_rate
      ⟨fun _ => some ⟨60, 0⟩, 7, fun _ _ => DISP_CHANGE_SUCCESSFUL⟩ "d" 60 =
      (true, false, []) ∧
    set_display_refresh_rate
      ⟨fun _ => some ⟨60, 0⟩, 7, fun _ _ => DISP_CHANGE_SUCCESSFUL⟩ "d" 60 =
      (true, false, []) :=
  C3_idempotent_short_circuit
    ⟨fun _ => some ⟨60, 0⟩, 7, fun _ _ => DISP_CHANGE_SUCCESSFUL⟩
    ⟨fun _ => some ⟨60, 0⟩, 7, fun _ _ => DISP_CHANGE_SUCCESSFUL⟩
    "d" 60 ⟨60, 0⟩ ⟨60, 0⟩ rfl rfl rfl rfl

/-- Claim C7: when the current-settings read fails,
set_display_refresh_rate returns the failure outcome carrying the
platform error code in its logged diagnostic, and the change primitive is
never invoked. -/
theorem C7_read_failure_no_change (env : SetterPlatform) (d : String) (r : Nat)
    (hread : env.enumCurrent (to_wide_string d) = none) :
    set_display_refresh_rate env d r =
      (false, false, [SetterLog.enumSettingsFailed env.lastError]) := by
  simp [set_display_refresh_rate, hread]

/-- Claim C7 at a concrete input: a platform whose current-settings read
fails with last error 5. -/
theorem C7_read_failure_no_change_witness :
    set_display_refresh_rate
      ⟨fun _ => none, 5, fun _ _ => DISP_CHANGE_SUCCESSFUL⟩ "d" 144 =
      (false, false, [SetterLog.enumSettingsFailed 5]) :=
  C7_read_failure_no_change
    ⟨fun _ => none, 5, fun _ _ => DISP_CHANGE_SUCCESSFUL⟩ "d" 144 rfl

/-! ## Topology Enumerator (get_all_display_devices, lib.rs lines 58-213)

The function opens a device-class enumeration handle with
SetupDiGetClassDevsW, walks adapters with EnumDisplayDevicesW(null, i),
walks each attached adapter's monitors with
EnumDisplayDevicesW(adapter name, i), resolves each active monitor's
display name through the device-class entries (SetupDiEnumDeviceInfo and
SetupDiGetDeviceRegistryPropertyW), and finally releases the handle with
SetupDiDestroyDeviceInfoList.  The platform environment records the
responses of all four services; index-until-failure enumerations are
modelled as the finite lists of the successful responses.  The run
function also returns the trace of platform events, so that handle
release and the absence of enumeration on failure paths are observable. -/

/-- Constant DISPLAY_DEVICE_ATTACHED_TO_DESKTOP from wingdi. -/
def DISPLAY_DEVICE_ATTACHED_TO_DESKTOP : Nat := 1

/-- Constant DISPLAY_DEVICE_ACTIVE from wingdi. -/
def DISPLAY_DEVICE_ACTIVE : Nat := 1

/-- Constant DISPLAY_DEVICE_PRIMARY_DEVICE from wingdi. -/
def DISPLAY_DEVICE_PRIMARY_DEVICE : Nat := 4

/-- The DISPLAY_DEVICEW fields the program reads: the raw wide-character
device-name buffer, the raw wide-character description buffer, and the
state flags. -/
structure DISPLAY_DEVICE where
  DeviceName : List Nat
  DeviceString : List Nat
  StateFlags : Nat
deriving DecidableEq, Repr, Inhabited

/-- The record the enumeration produces for one active monitor (lib.rs
lines 52-56). -/
structure DisplayDevice where
  device_name : String
  display_name : String
deriving DecidableEq, Repr, Inhabited

/-- One device-info entry of the monitor device class, as the two
registry-property reads see it: the raw friendly-name property data and
the raw device-description property data; none models a failed
SetupDiGetDeviceRegistryPropertyW call (property absent or buffer too
small). -/
structure DevInfoEntry where
  friendlyName : Option (List Nat)
  deviceDesc : Option (List Nat)
deriving DecidableEq, Repr

/-- Platform responses consumed by the topology enumeration: whether
SetupDiGetClassDevsW returns a valid handle, the value GetLastError would
report, the adapter records EnumDisplayDevicesW(null, i) yields, the
monitor records EnumDisplayDevicesW(adapter name, i) yields for a given
null-terminated wide adapter name, and the device-info entries
SetupDiEnumDeviceInfo yields. -/
structure TopologyPlatform where
  classDevsOk : Bool
  lastError : Nat
  adapters : List DISPLAY_DEVICE
  monitors : List Nat → List DISPLAY_DEVICE
  devinfos : List DevInfoEntry

/-- Model of the per-monitor name-resolution loop (lib.rs lines 129-199).
The loop breaks unconditionally at the end of its first iteration, so
only the first device-info entry is ever consulted; with no entries the
loop body never runs and the initial fallback (the decoded DeviceString,
recomputed identically at line 194) is kept.  A candidate is accepted
only when it is non-empty and differs from the placeholder string. -/
def resolve_monitor_name (devinfos : List DevInfoEntry) (fallback : String) : String :=
  match devinfos with
  | [] => fallback
  | e :: _ =>
    let candidate1 : String :=
      match e.friendlyName with
      | some data =>
        if decode_trim data ≠ "" ∧ decode_trim data ≠ "Generic PnP Monitor" then
          decode_trim data
        else ""
      | none => ""
    let candidate2 : String :=
      if candidate1 = "" ∨ candidate1 = "Generic PnP Monitor" then
        match e.deviceDesc with
        | some data =>
          if decode_trim data ≠ "" ∧ decode_trim data ≠ "Generic PnP Monitor" then
            decode_trim data
          else candidate1
        | none => candidate1
      else candidate1
    if candidate2 ≠ "" then candidate2 else fallback

/-- An observable platform call made during one topology enumeration
pass: the diagnostic logged when opening the device-class handle fails,
one adapter-enumeration call, one monitor-enumeration call, or the
release of the device-class handle. -/
inductive TopoEvent
  | openFailedLog (lastError : Nat)
  | enumAdapters (idx : Nat)
  | enumMonitors (adapterNameWide : List Nat) (idx : Nat)
  | destroyDeviceInfoList
deriving DecidableEq, Repr

/-- One iteration of the adapter loop (lib.rs lines 87-209): an adapter
without the attached-to-desktop flag contributes nothing; an attached
adapter's monitors are enumerated, the active ones are kept, and each is
paired with the adapter's decoded device name and its resolved display
name. -/
def adapterStep (env : TopologyPlatform) (a : DISPLAY_DEVICE) :
    List TopoEvent × List DisplayDevice :=
  if a.StateFlags &&& DISPLAY_DEVICE_ATTACHED_TO_DESKTOP ≠ 0 then
    ((List.range ((env.monitors (to_wide_string (decode_trim a.DeviceName))).length + 1)).map
        (TopoEvent.enumMonitors (to_wide_string (decode_trim a.DeviceName))),
     ((env.monitors (to_wide_string (decode_trim a.DeviceName))).filter fun m =>
         m.StateFlags &&& DISPLAY_DEVICE_ACTIVE != 0).map fun m =>
       { device_name := decode_trim a.DeviceName,
         display_name := resolve_monitor_name env.devinfos (decode_trim m.DeviceString) })
  else ([], [])

/-- Model of get_all_display_devices (lib.rs lines 58-213), returning the
trace of platform events alongside the produced device list.  When the
device-class handle cannot be opened the function logs the platform
error and returns the empty list at once; otherwise it walks all
adapters (one enumeration call per index, the last one failing) and
releases the handle exactly once at the end. -/
def get_all_display_devices_run (env : TopologyPlatform) :
    List TopoEvent × List DisplayDevice :=
  if env.classDevsOk then
    ((List.range (env.adapters.length + 1)).map TopoEvent.enumAdapters
       ++ ((env.adapters.map (adapterStep env)).map Prod.fst).flatten
       ++ [TopoEvent.destroyDeviceInfoList],
     ((env.adapters.map (adapterStep env)).map Prod.snd).flatten)
  else
    ([TopoEvent.openFailedLog env.lastError], [])

/-- The device list get_all_display_devices returns. -/
def get_all_display_devices (env : TopologyPlatform) : List DisplayDevice :=
  (get_all_display_devices_run env).2

/-- Model of get_primary_display_device_name (lib.rs lines 215-234):
walk the adapter records in enumeration order and return the decoded
device name of the first one carrying the primary-device flag; none when
enumeration ends with no such record. -/
def get_primary_display_device_name : List DISPLAY_DEVICE → Option String
  | [] => none
  | d :: rest =>
    if d.StateFlags &&& DISPLAY_DEVICE_PRIMARY_DEVICE ≠ 0 then
      some (decode_trim d.DeviceName)
    else get_primary_display_device_name rest

/-- Claim C4: every entry of the returned sequence stems from an adapter
carrying the attached-to-desktop flag and from a monitor of that adapter
carrying the active flag; an adapter or monitor without its flag is
excluded even when the platform enumerates it. -/
theorem C4_only_attached_active (env : TopologyPlatform) (d : DisplayDevice)
    (hd : d ∈ get_all_display_devices env) :
    ∃ a ∈ env.adapters,
      a.StateFlags &&& DISPLAY_DEVICE_ATTACHED_TO_DESKTOP ≠ 0 ∧
      d.device_name = decode_trim a.DeviceName ∧
      ∃ m ∈ env.monitors (to_wide_string (decode_trim a.DeviceName)),
        m.StateFlags &&& DISPLAY_DEVICE_ACTIVE ≠ 0 ∧
        d.display_name = resolve_monitor_name env.devinfos (decode_trim m.DeviceString) := by
  unfold get_all_display_devices get_all_display_devices_run at hd
  by_cases hok : env.classDevsOk
  · simp only [hok, if_pos, List.mem_flatten, List.mem_map] at hd
    obtain ⟨block, ⟨⟨step, ⟨⟨a, ha, rfl⟩, rfl⟩⟩, hdblock⟩⟩ := hd
    unfold adapterStep at hdblock
    by_cases hatt : a.StateFlags &&& DISPLAY_DEVICE_ATTACHED_TO_DESKTOP ≠ 0
    · rw [if_pos hatt] at hdblock
      simp only [List.mem_map, List.mem_filter] at hdblock
      obtain ⟨m, ⟨hm, hmact⟩, rfl⟩ := hdblock
      refine ⟨a, ha, hatt, rfl, m, hm, ?_, rfl⟩
      simpa using hmact
    · rw [if_neg hatt] at hdblock
      simp at hdblock
  · simp [hok] at hd

/-- A topology platform with one attached adapter, one active monitor and
no device-info entries. -/
def envOneMonitor : TopologyPlatform :=
  ⟨true, 0, [⟨[68, 0], [65, 0], 1⟩], fun _ => [⟨[77, 0], [83, 0], 1⟩], []⟩

/-- Claim C4 at a concrete input: the platform with one attached adapter
named "D" and one active monitor whose description decodes to "S". -/
theorem C4_only_attached_active_witness :
    ∃ a ∈ envOneMonitor.adapters,
      a.StateFlags &&& DISPLAY_DEVICE_ATTACHED_TO_DESKTOP ≠ 0 ∧
      (⟨"D", "S"⟩ : DisplayDevice).device_name = decode_trim a.DeviceName ∧
      ∃ m ∈ envOneMonitor.monitors (to_wide_string (decode_trim a.DeviceName)),
        m.StateFlags &&& DISPLAY_DEVICE_ACTIVE ≠ 0 ∧
        (⟨"D", "S"⟩ : DisplayDevice).display_name =
          resolve_monitor_name envOneMonitor.devinfos (decode_trim m.DeviceString) :=
  C4_only_attached_active envOneMonitor ⟨"D", "S"⟩ (by decide)

/-- Claim C8: when opening the device-class enumeration handle fails,
get_all_display_devices returns the empty sequence, and the only
observable action is the logged diagnostic carrying the platform error
code — no adapter or monitor enumeration call is made and the handle is
not released. -/
theorem C8_open_failure_returns_empty (env : TopologyPlatform)
    (h : env.classDevsOk = false) :
    get_all_display_devices env = [] ∧
    (get_all_display_devices_run env).1 = [TopoEvent.openFailedLog env.lastError] := by
  simp [get_all_display_devices, get_all_display_devices_run, h]

/-- A topology platform whose device-class open fails with error 3 even
though an adapter and a monitor would be enumerable. -/
def envOpenFails : TopologyPlatform :=
  ⟨false, 3, [⟨[68, 0], [65, 0], 1⟩], fun _ => [⟨[77, 0], [83, 0], 1⟩], []⟩

/-- Claim C8 at a concrete input: an open failure with last error 3. -/
theorem C8_open_failure_returns_empty_witness :
    get_all_display_devices envOpenFails = [] ∧
    (get_all_display_devices_run envOpenFails).1 =
      [TopoEvent.openFailedLog envOpenFails.lastError] :=
  C8_open_failure_returns_empty envOpenFails rfl

/-- Claim C10: get_primary_display_device_name returns the decoded device
name of the lowest-index enumerated record carrying the primary-device
flag, and none exactly when no enumerated record carries that flag. -/
theorem C10_primary_device (adapters : List DISPLAY_DEVICE) :
    (get_primary_display_device_name adapters = none ↔
      ∀ d ∈ adapters, d.StateFlags &&& DISPLAY_DEVICE_PRIMARY_DEVICE = 0) ∧
    (∀ s, get_primary_display_device_name adapters = some s →
      ∃ i, ∃ h : i < adapters.length,
        (adapters.get ⟨i, h⟩).StateFlags &&& DISPLAY_DEVICE_PRIMARY_DEVICE ≠ 0 ∧
        s = decode_trim (adapters.get ⟨i, h⟩).DeviceName ∧
        ∀ j (hj : j < adapters.length), j < i →
          (adapters.get ⟨j, hj⟩).StateFlags &&& DISPLAY_DEVICE_PRIMARY_DEVICE = 0) := by
  induction adapters with
  | nil =>
    constructor
    · simp [get_primary_display_device_name]
    · intro s hs
      simp [get_primary_display_device_name] at hs
  | cons d rest ih =>
    by_cases hflag : d.StateFlags &&& DISPLAY_DEVICE_PRIMARY_DEVICE ≠ 0
    · constructor
      · constructor
        · intro hnone
          simp [get_primary_display_device_name, hflag] at hnone
        · intro hall
          exact absurd (hall d (List.mem_cons_self d rest)) hflag
      · intro s hs
        simp only [get_primary_display_device_name, if_pos hflag, Option.some.injEq] at hs
        refine ⟨0, Nat.succ_pos _, ?_, ?_, ?_⟩
        · simpa using hflag
        · simp [hs.symm]
        · intro j hj hj0
          omega
    · have hflag0 : d.StateFlags &&& DISPLAY_DEVICE_PRIMARY_DEVICE = 0 := by
        simpa using hflag
      have hstep : get_primary_display_device_name (d :: rest) =
          get_primary_display_device_name rest := by
        simp [get_primary_display_device_name, hflag]
      constructor
      · rw [hstep, ih.1]
        constructor
        · intro hall
          intro x hx
          rcases List.mem_cons.mp hx with rfl | hx'
          · exact hflag0
          · exact hall x hx'
        · intro hall x hx
          exact hall x (List.mem_cons_of_mem d hx)
      · intro s hs
        rw [hstep] at hs
        obtain ⟨i, h, hprim, hname, hleast⟩ := ih.2 s hs
        refine ⟨i + 1, Nat.succ_lt_succ h, ?_, ?_, ?_⟩
        · simpa using hprim
        · simpa using hname
        · intro j hj hji
          match j, hj with
          | 0, _ => exact hflag0
          | j' + 1, hj =>
            have := hleast j' (Nat.lt_of_succ_lt_succ hj) (Nat.lt_of_succ_lt_succ hji)
            simpa using this

/-- Claim C5: name resolution accepts the first candidate in priority
order (friendly name, then description) that is non-empty and differs
from the placeholder "Generic PnP Monitor"; a friendly name equal to the
placeholder (or empty, or unreadable) causes the description to decide;
and with no acceptable candidate — in particular with zero device-info
entries — the caller-supplied fallback is returned unchanged. -/
theorem C5_name_resolution (e : DevInfoEntry) (rest : List DevInfoEntry)
    (fallback : String) :
    (resolve_monitor_name [] fallback = fallback) ∧
    (∀ data, e.friendlyName = some data →
      decode_trim data ≠ "" → decode_trim data ≠ "Generic PnP Monitor" →
      resolve_monitor_name (e :: rest) fallback = decode_trim data) ∧
    ((∀ data, e.friendlyName = some data →
        decode_trim data = "" ∨ decode_trim data = "Generic PnP Monitor") →
      ∀ data2, e.deviceDesc = some data2 →
        decode_trim data2 ≠ "" → decode_trim data2 ≠ "Generic PnP Monitor" →
        resolve_monitor_name (e :: rest) fallback = decode_trim data2) ∧
    ((∀ data, e.friendlyName = some data →
        decode_trim data = "" ∨ decode_trim data = "Generic PnP Monitor") →
      (∀ data2, e.deviceDesc = some data2 →
        decode_trim data2 = "" ∨ decode_trim data2 = "Generic PnP Monitor") →
      resolve_monitor_name (e :: rest) fallback = fallback) := by
  refine ⟨rfl, ?_, ?_, ?_⟩
  · intro data hdat h1 h2
    simp [resolve_monitor_name, hdat, h1, h2]
  · intro hF data2 hdat2 h1 h2
    cases hdat : e.friendlyName with
    | none => simp [resolve_monitor_name, hdat, hdat2, h1, h2]
    | some data =>
      rcases hF data hdat with h | h <;>
        simp [resolve_monitor_name, hdat, hdat2, h, h1, h2]
  · intro hF hD
    cases hdat : e.friendlyName with
    | none =>
      cases hdat2 : e.deviceDesc with
      | none => simp [resolve_monitor_name, hdat, hdat2]
      | some data2 =>
        rcases hD data2 hdat2 with h2 | h2 <;>
          simp [resolve_monitor_name, hdat, hdat2, h2]
    | some data =>
      rcases hF data hdat with h | h <;>
      · cases hdat2 : e.deviceDesc with
        | none => simp [resolve_monitor_name, hdat, hdat2, h]
        | some data2 =>
          rcases hD data2 hdat2 with h2 | h2 <;>
            simp [resolve_monitor_name, hdat, hdat2, h, h2]

/-- No call of one adapter-loop iteration is a handle release. -/
theorem destroy_not_mem_adapterStep (env : TopologyPlatform)
    (a : DISPLAY_DEVICE) :
    TopoEvent.destroyDeviceInfoList ∉ (adapterStep env a).1 := by
  unfold adapterStep
  by_cases h : a.StateFlags &&& DISPLAY_DEVICE_ATTACHED_TO_DESKTOP ≠ 0 <;>
    simp [h]

/-- Claim C6: on a pass where the device-class handle is opened
successfully, the trace releases the handle exactly once; on the
early-return path where opening fails, no release occurs. -/
theorem C6_handle_released_exactly_once (env : TopologyPlatform) :
    (env.classDevsOk = true →
      (get_all_display_devices_run env).1.count TopoEvent.destroyDeviceInfoList = 1) ∧
    (env.classDevsOk = false →
      (get_all_display_devices_run env).1.count TopoEvent.destroyDeviceInfoList = 0) := by
  constructor
  · intro h
    simp only [get_all_display_devices_run, h, if_pos]
    rw [List.count_append, List.count_append]
    have hadapters :
        ((List.range (env.adapters.length + 1)).map TopoEvent.enumAdapters).count
          TopoEvent.destroyDeviceInfoList = 0 := by
      rw [List.count_eq_zero]
      simp
    have hmons :
        (((env.adapters.map (adapterStep env)).map Prod.fst).flatten).count
          TopoEvent.destroyDeviceInfoList = 0 := by
      rw [List.count_eq_zero, List.mem_flatten]
      rintro ⟨l, hl, hmem⟩
      simp only [List.map_map, List.mem_map] at hl
      obtain ⟨a, _, rfl⟩ := hl
      exact destroy_not_mem_adapterStep env a hmem
    rw [hadapters, hmons]
    simp
  · intro h
    simp [get_all_display_devices_run, h]

/-! ## Ordering of the enumeration result -/

/-- Strict lexicographic order on (adapter index, monitor index) pairs. -/
def pairLexLt (p q : Nat × Nat) : Prop :=
  p.1 < q.1 ∨ (p.1 = q.1 ∧ p.2 < q.2)

/-- The monitor indices the enumeration keeps for the adapter at index i:
none when that adapter lacks the attached-to-desktop flag, otherwise
every index of an active monitor of that adapter, paired with i, in
monitor enumeration order. -/
def activeIndexBlock (env : TopologyPlatform) (i : Nat) : List (Nat × Nat) :=
  if (env.adapters.getD i default).StateFlags &&& DISPLAY_DEVICE_ATTACHED_TO_DESKTOP ≠ 0 then
    ((List.range (env.monitors (to_wide_string (decode_trim
          (env.adapters.getD i default).DeviceName))).length).filter fun j =>
        ((env.monitors (to_wide_string (decode_trim
          (env.adapters.getD i default).DeviceName))).getD j default).StateFlags &&&
          DISPLAY_DEVICE_ACTIVE != 0).map fun j => (i, j)
  else []

/-- All (adapter index, monitor index) pairs the enumeration keeps, in
adapter order and monitor order within each adapter. -/
def activeIndexPairs (env : TopologyPlatform) : List (Nat × Nat) :=
  ((List.range env.adapters.length).map (activeIndexBlock env)).flatten

/-- The display device the enumeration builds from the adapter at index
p.1 and that adapter's monitor at index p.2. -/
def deviceAt (env : TopologyPlatform) (p : Nat × Nat) : DisplayDevice :=
  { device_name := decode_trim (env.adapters.getD p.1 default).DeviceName,
    display_name := resolve_monitor_name env.devinfos (decode_trim
      ((env.monitors (to_wide_string (decode_trim
        (env.adapters.getD p.1 default).DeviceName))).getD p.2 default).DeviceString) }

theorem map_range_getD {α β : Type} (l : List α) (d : α) (f : α → β) :
    ((List.range l.length).map fun i => f (l.getD i d)) = l.map f := by
  induction l with
  | nil => simp
  | cons a t ih =>
    rw [List.length_cons, List.range_succ_eq_map, List.map_cons, List.map_map]
    have hcomp : ((fun i => f ((a :: t).getD i d)) ∘ Nat.succ) =
        fun i => f (t.getD i d) := by
      funext i
      simp
    rw [hcomp, ih]
    simp

theorem filter_map_range_getD {α β : Type} (l : List α) (d : α) (p : α → Bool)
    (f : α → β) :
    (((List.range l.length).filter fun j => p (l.getD j d)).map
        fun j => f (l.getD j d)) = (l.filter p).map f := by
  induction l with
  | nil => simp
  | cons a t ih =>
    rw [List.length_cons, List.range_succ_eq_map]
    have hcomp : ((fun j => p ((a :: t).getD j d)) ∘ Nat.succ) =
        fun j => p (t.getD j d) := by
      funext j
      simp
    have hmap : (((List.range t.length).map Nat.succ).filter
          fun j => p ((a :: t).getD j d)).map (fun j => f ((a :: t).getD j d)) =
        ((List.range t.length).filter fun j => p (t.getD j d)).map
          fun j => f (t.getD j d) := by
      rw [List.filter_map, hcomp, List.map_map]
      have : ((fun j => f ((a :: t).getD j d)) ∘ Nat.succ) =
          fun j => f (t.getD j d) := by
        funext j
        simp
      rw [this]
    by_cases hpa : p a
    · rw [List.filter_cons_of_pos (by simpa using hpa), List.map_cons, hmap, ih,
        List.filter_cons_of_pos hpa, List.map_cons]
      simp
    · rw [List.filter_cons_of_neg (by simpa using hpa), hmap, ih,
        List.filter_cons_of_neg hpa]

theorem fst_of_mem_activeIndexBlock (env : TopologyPlatform) (i : Nat)
    (x : Nat × Nat) (hx : x ∈ activeIndexBlock env i) : x.1 = i := by
  unfold activeIndexBlock at hx
  split at hx
  · simp only [List.mem_map] at hx
    obtain ⟨j, _, rfl⟩ := hx
    rfl
  · simp at hx

theorem pairwise_activeIndexBlock (env : TopologyPlatform) (i : Nat) :
    List.Pairwise pairLexLt (activeIndexBlock env i) := by
  unfold activeIndexBlock
  split
  · rw [List.pairwise_map]
    have hlt : List.Pairwise (· < ·)
        ((List.range (env.monitors (to_wide_string (decode_trim
            (env.adapters.getD i default).DeviceName))).length).filter fun j =>
          ((env.monitors (to_wide_string (decode_trim
            (env.adapters.getD i default).DeviceName))).getD j default).StateFlags &&&
            DISPLAY_DEVICE_ACTIVE != 0) :=
      (List.pairwise_lt_range _).sublist (List.filter_sublist _)
    exact hlt.imp fun h => Or.inr ⟨rfl, h⟩
  · exact List.Pairwise.nil

theorem block_map_deviceAt (env : TopologyPlatform) (i : Nat) :
    (activeIndexBlock env i).map (deviceAt env) =
      (adapterStep env (env.adapters.getD i default)).2 := by
  unfold activeIndexBlock adapterStep
  by_cases hatt : (env.adapters.getD i default).StateFlags &&&
      DISPLAY_DEVICE_ATTACHED_TO_DESKTOP ≠ 0
  · rw [if_pos hatt, if_pos hatt, List.map_map]
    have hfun : (deviceAt env ∘ fun j => (i, j)) = fun j =>
        (fun m : DISPLAY_DEVICE =>
          ({ device_name := decode_trim (env.adapters.getD i default).DeviceName,
             display_name := resolve_monitor_name env.devinfos
               (decode_trim m.DeviceString) } : DisplayDevice))
          ((env.monitors (to_wide_string (decode_trim
            (env.adapters.getD i default).DeviceName))).getD j default) := by
      funext j
      rfl
    rw [hfun]
    exact filter_map_range_getD
      (env.monitors (to_wide_string (decode_trim
        (env.adapters.getD i default).DeviceName)))
      default
      (fun m => m.StateFlags &&& DISPLAY_DEVICE_ACTIVE != 0)
      (fun m => ({ device_name := decode_trim (env.adapters.getD i default).DeviceName,
                   display_name := resolve_monitor_name env.devinfos
                     (decode_trim m.DeviceString) } : DisplayDevice))
  · rw [if_neg hatt, if_neg hatt]
    rfl

/-- Claim C9: the returned sequence lists one entry per kept (adapter
index, monitor index) pair, in strictly increasing lexicographic order of
those pairs — adapter enumeration order first, monitor enumeration order
within an adapter — restricted to attached adapters and active monitors;
when the device-class open fails the sequence is empty. -/
theorem C9_result_ordering (env : TopologyPlatform) :
    List.Pairwise pairLexLt (activeIndexPairs env) ∧
    (env.classDevsOk = true →
      get_all_display_devices env = (activeIndexPairs env).map (deviceAt env)) ∧
    (env.classDevsOk = false → get_all_display_devices env = []) := by
  refine ⟨?_, ?_, ?_⟩
  · unfold activeIndexPairs
    rw [List.pairwise_flatten]
    constructor
    · intro b hb
      simp only [List.mem_map] at hb
      obtain ⟨i, _, rfl⟩ := hb
      exact pairwise_activeIndexBlock env i
    · rw [List.pairwise_map]
      refine (List.pairwise_lt_range _).imp ?_
      intro i i' hii x hx y hy
      exact Or.inl (by
        rw [fst_of_mem_activeIndexBlock env i x hx,
          fst_of_mem_activeIndexBlock env i' y hy]
        exact hii)
  · intro h
    simp only [get_all_display_devices, get_all_display_devices_run, h, if_true]
    unfold activeIndexPairs
    rw [List.map_flatten, List.map_map, List.map_map]
    congr 1
    have hblocks : ((List.map (deviceAt env)) ∘ activeIndexBlock env) =
        fun i => (adapterStep env (env.adapters.getD i default)).2 := by
      funext i
      exact block_map_deviceAt env i
    rw [hblocks, map_range_getD env.adapters default
      (fun a => (adapterStep env a).2)]
    rfl
  · intro h
    simp [get_all_display_devices, get_all_display_devices_run, h]

end RefreshRateCtl
